import Mathlib

/-!
Verification of the audiobook-smart-organizer pipeline (ebooksort.py,
write_tags.py, config_manager.py, update_covers.py).

Strings are modelled as lists of Unicode code points (`List ℕ`), so Python's
code-point-wise string comparison, case mapping and regular-expression
behaviour can be embedded exactly.  File durations (Python floats obtained
from `mutagen ... info.length`) are modelled as rationals; the chapter
boundary claims only involve the exact additive structure of the
computation, which is identical for floats and rationals here because the
code reuses the same computed sum (`current_time_s`) for the next chapter.
-/

/-- A Python string, as its list of Unicode code points. -/
abbrev Str := List ℕ

/-- Convenience: code points of a Lean string literal (for concrete inputs). -/
def codes (s : String) : Str := s.data.map (fun c => c.toNat)

/-- Python `\s` on ASCII input: space, tab, LF, VT, FF, CR. -/
def isWsCp (c : ℕ) : Bool := c == 32 || (9 ≤ c && c ≤ 13)

/-- ASCII decimal digit, Python `\d` on ASCII input. -/
def isDigitCp (c : ℕ) : Bool := 48 ≤ c && c ≤ 57

def isUpperCp (c : ℕ) : Bool := 65 ≤ c && c ≤ 90

def isLowerCp (c : ℕ) : Bool := 97 ≤ c && c ≤ 122

/-- ASCII letter (a cased character in Python's `str.title` sense). -/
def isAlphaCp (c : ℕ) : Bool := isUpperCp c || isLowerCp c

def toLowerCp (c : ℕ) : ℕ := if isUpperCp c then c + 32 else c

def toUpperCp (c : ℕ) : ℕ := if isLowerCp c then c - 32 else c

/-- Python `str.lower()` (ASCII fragment). -/
def pyLower (s : Str) : Str := s.map toLowerCp

/-- Helper for `pyTitle`: the Boolean records whether the previous character
was cased (Python `str.title` uppercases a letter exactly when the previous
character is not cased). -/
def pyTitleGo : Bool → Str → Str
  | _, [] => []
  | prevCased, c :: cs =>
    if isAlphaCp c then
      (if prevCased then toLowerCp c else toUpperCp c) :: pyTitleGo true cs
    else
      c :: pyTitleGo false cs

/-- Python `str.title()` (ASCII fragment). -/
def pyTitle (s : Str) : Str := pyTitleGo false s

/-- Python `str.strip()` with no arguments: remove leading/trailing whitespace. -/
def stripWs (s : Str) : Str := ((s.dropWhile isWsCp).reverse.dropWhile isWsCp).reverse

/-- Helper for `collapseWs`: the Boolean records whether we are inside a
whitespace run (whose first character already emitted the single space). -/
def collapseWsGo : Bool → Str → Str
  | _, [] => []
  | inRun, c :: cs =>
    if isWsCp c then
      if inRun then collapseWsGo true cs else 32 :: collapseWsGo true cs
    else c :: collapseWsGo false cs

/-- Python `re.sub(r'\s+', ' ', s)`: every maximal whitespace run becomes one space. -/
def collapseWs (s : Str) : Str := collapseWsGo false s

/-- The character class removed by `sanitize_filename` (ebooksort.py line 128):
`[\\/*?<>|":]`. -/
def isIllegalFilenameCp (c : ℕ) : Bool := [92, 47, 42, 63, 60, 62, 124, 34, 58].contains c

/-- ebooksort.py `sanitize_filename` (lines 127–131): delete filesystem-illegal
characters, strip, collapse whitespace runs to single spaces. -/
def sanitize_filename (name : Str) : Str :=
  collapseWs (stripWs (name.filter (fun c => !isIllegalFilenameCp c)))

/-- `os.path.splitext(name)[0]` for a basename (no path separators): drop the
suffix starting at the last dot, unless every character before that dot is
itself a dot (then there is no extension). -/
def splitextRoot (name : Str) : Str :=
  match name.reverse.dropWhile (fun c => c != 46) with
  | [] => name
  | _ :: beforeRev => if beforeRev.any (fun c => c != 46) then beforeRev.reverse else name

/-- `filename.replace('_', ' ')` on code points. -/
def underscoreToSpace (s : Str) : Str := s.map (fun c => if c == 95 then 32 else c)

/-- The chapter title computed at ebooksort.py line 574:
`os.path.splitext(filename)[0].replace('_', ' ').title()`. -/
def chapterTitleOf (filename : Str) : Str := pyTitle (underscoreToSpace (splitextRoot filename))

/-- Python `sorted` on a list of strings: stable sort by the code-point
lexicographic order, which is exactly the `LinearOrder` on `List ℕ`
(ebooksort.py lines 567 and 603 use this plain `sorted`). -/
def pySorted (files : List Str) : List Str := List.insertionSort (· ≤ ·) files

/-- One element of write_tags.py `natural_keys`: `re.split('(\d+)', text)`
alternates non-digit substrings with digit runs converted by `int`. -/
inductive NatKey where
  | str (s : Str)
  | num (n : ℕ)
deriving DecidableEq

mutual

/-- write_tags.py lines 74–75, non-digit state: accumulate the current
non-digit run (reversed in `acc`). -/
def naturalKeysStr (acc : Str) : Str → List NatKey
  | [] => [NatKey.str acc.reverse]
  | c :: cs =>
    if isDigitCp c then naturalKeysNum acc.reverse (c - 48) cs
    else naturalKeysStr (c :: acc) cs

/-- write_tags.py lines 74–75, digit state: `pre` is the non-digit run before
this digit run, `n` the value accumulated so far (`int` of the digits). -/
def naturalKeysNum (pre : Str) (n : ℕ) : Str → List NatKey
  | [] => [NatKey.str pre, NatKey.num n, NatKey.str []]
  | c :: cs =>
    if isDigitCp c then naturalKeysNum pre (10 * n + (c - 48)) cs
    else NatKey.str pre :: NatKey.num n :: naturalKeysStr [c] cs

end

/-- write_tags.py `natural_keys(text)`: `[int(c) if c.isdigit() else c for c in
re.split('(\d+)', text)]`.  The result alternates `str` and `num` entries,
starting and ending with a (possibly empty) `str` entry. -/
def natural_keys (s : Str) : List NatKey := naturalKeysStr [] s

/-- Python `<` on two `natural_keys` lists.  Both lists alternate
`str`/`num`/`str`/… starting with `str`, so a comparison of a `str` entry with
a `num` entry (which would raise `TypeError` in Python) can only occur at equal
positions of different parity — impossible; those cases are given the value
`false` but are unreachable in `sort_audio_files`. -/
def keyLt : List NatKey → List NatKey → Bool
  | [], [] => false
  | [], _ :: _ => true
  | _ :: _, [] => false
  | NatKey.str a :: ks, NatKey.str b :: ls =>
    if a < b then true else if b < a then false else keyLt ks ls
  | NatKey.num a :: ks, NatKey.num b :: ls =>
    if a < b then true else if b < a then false else keyLt ks ls
  | NatKey.str _ :: _, NatKey.num _ :: _ => false
  | NatKey.num _ :: _, NatKey.str _ :: _ => false

/-- write_tags.py `sort_audio_files` (lines 69–78): Python's stable
`files.sort(key=natural_keys)`, i.e. a stable sort by the ascending order
`¬ key(b) < key(a)`. -/
def sort_audio_files (files : List Str) : List Str :=
  List.insertionSort (fun a b => keyLt (natural_keys b) (natural_keys a) = false) files

/-- One entry of the `chapters` list built at ebooksort.py lines 563–575.
`stop` is the JSON field `"end"` (a Lean keyword). -/
structure Chapter where
  id : ℕ
  start : ℚ
  stop : ℚ
  title : Str
deriving DecidableEq

/-- The loop of ebooksort.py lines 568–577: `i` is the `enumerate` index, `t`
is `current_time_s`; a file whose duration cannot be read (`mutagen.File`
returns a falsy value or raises) is skipped, advancing `i` but not `t`. -/
def chaptersGo (dur : Str → Option ℚ) : ℕ → ℚ → List Str → List Chapter
  | _, _, [] => []
  | i, t, f :: fs =>
    match dur f with
    | some d =>
      { id := i, start := t, stop := t + d, title := chapterTitleOf f } ::
        chaptersGo dur (i + 1) (t + d) fs
    | none => chaptersGo dur (i + 1) t fs

/-- ebooksort.py lines 563–577: the `chapters` value written into
`metadata.json`.  The audio files of the title directory are sorted with the
plain Python `sorted` (line 567) and folded with `current_time_s` starting at
`0.0`. -/
def buildChapters (dur : Str → Option ℚ) (files : List Str) : List Chapter :=
  chaptersGo dur 0 0 (pySorted files)

/-- Time-contiguity from instant `t`: the first chapter starts at `t`, each
chapter's `stop` is its `start` plus the duration of some readable audio file
whose transformed name is the chapter's title, and each next chapter starts at
the previous chapter's `stop`. -/
def ChaptersContiguous (dur : Str → Option ℚ) : ℚ → List Chapter → Prop
  | _, [] => True
  | t, c :: cs =>
    c.start = t ∧
      (∃ f d, dur f = some d ∧ c.stop = c.start + d ∧ c.title = chapterTitleOf f) ∧
      ChaptersContiguous dur c.stop cs

/-- Decimal digits of a natural number, most significant first (Python
f-string `f"{counter}"`).  The first argument is structural-recursion fuel;
`natDigits` supplies enough. -/
def natDigitsGo : ℕ → ℕ → Str
  | 0, _ => []
  | fuel + 1, n => if n < 10 then [n + 48] else natDigitsGo fuel (n / 10) ++ [n % 10 + 48]

def natDigits (n : ℕ) : Str := natDigitsGo (n + 1) n

/-- `os.path.join(base, name)` for the joins this program performs (`name` is
never absolute): insert a separator unless `base` is empty or already ends in
one. -/
def joinPath (base name : Str) : Str :=
  if base = [] then name
  else if base.getLast? = some 47 then base ++ name
  else base ++ 47 :: name

/-- `os.path.split(p)`: `name` is everything after the last `/`; `base` is the
part before it with trailing separators stripped (kept whole when it consists
only of separators). -/
def splitPath (p : Str) : Str × Str :=
  let r := p.reverse
  let nameRev := r.takeWhile (fun c => c != 47)
  let headRev := r.dropWhile (fun c => c != 47)
  let headStripped := headRev.dropWhile (fun c => c == 47)
  ((if headStripped = [] then headRev else headStripped).reverse, nameRev.reverse)

/-- The candidate folder name `f"{name} ({counter})"` of ebooksort.py line 184. -/
def mkSuffixName (name : Str) (k : ℕ) : Str := name ++ [32, 40] ++ natDigits k ++ [41]

/-- The `while True` loop of `find_unique_foldername` (ebooksort.py lines
182–187).  The loop always terminates because candidates for distinct counters
are distinct, so at most `occupied.length` of them can collide; the structural
fuel supplied by `find_unique_foldername` covers that bound. -/
def findUniqueGo (occupied : List Str) (base name : Str) : ℕ → ℕ → Str
  | 0, k => joinPath base (mkSuffixName name k)
  | fuel + 1, k =>
    let cand := joinPath base (mkSuffixName name k)
    if occupied.contains cand then findUniqueGo occupied base name fuel (k + 1) else cand

/-- ebooksort.py `find_unique_foldername` (lines 179–187) over an abstract
filesystem state: `occupied` lists the existing paths. -/
def find_unique_foldername (occupied : List Str) (path : Str) : Str :=
  if occupied.contains path then
    findUniqueGo occupied (splitPath path).1 (splitPath path).2 (occupied.length + 1) 2
  else path

/-- The book-data dictionary returned by the metadata sources (ebooksort.py
lines 89 and 120): all values are strings, `"Unknown"` is the absent sentinel. -/
structure BookData where
  title : Str
  author : Str
  genre : Str
  series : Str
  year : Str
  synopsis : Str
deriving DecidableEq

def unknownStr : Str := codes "Unknown"

/-- The classification test of ebooksort.py line 505:
`if book_data and book_data["title"] != "Unknown"`. -/
def classifiedBook : Option BookData → Bool
  | some b => b.title != unknownStr
  | none => false

/-- ebooksort.py line 506. -/
def author_folder_name (b : BookData) : Str := sanitize_filename (pyTitle b.author)

/-- ebooksort.py line 507. -/
def title_folder_name (b : BookData) : Str := sanitize_filename (pyTitle b.title)

/-- ebooksort.py lines 510–511: the final library folder for a classified
book. -/
def titleDirPath (destRoot : Str) (b : BookData) : Str :=
  joinPath (joinPath destRoot (author_folder_name b)) (title_folder_name b)

/-- ebooksort.py lines 505–513: for a classified book the destination folder
is created with `os.makedirs(..., exist_ok=True)` and reused if it already
exists — no uniqueness suffix is applied on this path.  Returns the final
path and the updated set of existing directories. -/
def placeClassifiedBook (destRoot : Str) (existingDirs : List Str) (b : BookData) :
    Str × List Str :=
  let titleDir := titleDirPath destRoot b
  (titleDir, if existingDirs.contains titleDir then existingDirs else titleDir :: existingDirs)

/-- ebooksort.py line 464: `unclassified_dir = os.path.join(dest_dir, "unclassified")`. -/
def unclassifiedDirOf (destRoot : Str) : Str := joinPath destRoot (codes "unclassified")

/-- ebooksort.py line 629: `shutil.move(root,
find_unique_foldername(os.path.join(unclassified_dir, os.path.basename(root))))`.
Returns the destination path together with the folder after the move (its new
basename and its unchanged contents). -/
def relocate_unclassified (occupied : List Str) (unclassifiedDir : Str) (folderName : Str)
    (contents : List Str) : Str × (Str × List Str) :=
  let dest := find_unique_foldername occupied (joinPath unclassifiedDir folderName)
  (dest, ((splitPath dest).2, contents))

/-- Outcome of one iteration of the organize_audio_files book loop for the
placement decision (ebooksort.py lines 505 and 627–630). -/
inductive GroupOutcome where
  | classified (titleDir : Str)
  | unclassified (dest : Str) (folder : Str × List Str)
deriving DecidableEq

/-- The branch of ebooksort.py lines 505 and 627–630: a classified book goes
to its Author/Title folder (where metadata.json will be written); an
unclassified group is moved wholesale, contents untouched, to the
unclassified root under a collision-free name. -/
def processGroupStep (destRoot : Str) (occupied : List Str) (folderName : Str)
    (contents : List Str) (bd : Option BookData) : GroupOutcome :=
  match bd with
  | some b =>
    if b.title != unknownStr then GroupOutcome.classified (titleDirPath destRoot b)
    else
      GroupOutcome.unclassified
        (relocate_unclassified occupied (unclassifiedDirOf destRoot) folderName contents).1
        (relocate_unclassified occupied (unclassifiedDirOf destRoot) folderName contents).2
  | none =>
    GroupOutcome.unclassified
      (relocate_unclassified occupied (unclassifiedDirOf destRoot) folderName contents).1
      (relocate_unclassified occupied (unclassifiedDirOf destRoot) folderName contents).2

/-- The character class `[\s_-]` of the get_base_name patterns. -/
def isSepCp (c : ℕ) : Bool := isWsCp c || c == 95 || c == 45

/-- Length of the maximal run of characters satisfying `p` (greedy `X+`/`X*`). -/
def lenWhile (p : ℕ → Bool) (s : Str) : ℕ := (s.takeWhile p).length

/-- Matcher for the patterns `[\s_-]+part?\s*\d+`, `[\s_-]+chapter?\s*\d+`,
`[\s_-]+cap\s*\d+` and `[\s_-]+cd\s*\d+` of ebooksort.py line 172, tried at
one position of the subject: `word` is the mandatory literal (lowercase),
`optc` the optional trailing letter (`t` of `part?`, `r` of `chapter?`).
Returns the number of characters matched (`none` if no match here).  The
greedy left-to-right evaluation is exact because the character classes
involved (`[\s_-]`, the literal letters, `\s`, `\d`) are pairwise disjoint,
so regex backtracking can never turn a failure into a match. -/
def matchMarker (word : Str) (optc : Option ℕ) (s : Str) : Option ℕ :=
  let k1 := lenWhile isSepCp s
  if k1 = 0 then none
  else
    let s1 := s.drop k1
    if (s1.take word.length).map toLowerCp = word then
      let s2 := s1.drop word.length
      let c2 := k1 + word.length
      let s3c3 : Str × ℕ :=
        match optc, s2 with
        | some oc, c :: rest => if toLowerCp c = oc then (rest, c2 + 1) else (s2, c2)
        | _, _ => (s2, c2)
      let k3 := lenWhile isWsCp s3c3.1
      let s4 := s3c3.1.drop k3
      let k4 := lenWhile isDigitCp s4
      if k4 = 0 then none else some (s3c3.2 + k3 + k4)
    else none

/-- Matcher for `[\s_-]+\d+$` (ebooksort.py line 172) at one position: the
separator run and digit run must reach the end of the subject. -/
def matchTrailNum (s : Str) : Option ℕ :=
  let k1 := lenWhile isSepCp s
  if k1 = 0 then none
  else
    let s1 := s.drop k1
    let k2 := lenWhile isDigitCp s1
    if k2 = 0 then none
    else if s1.drop k2 = ([] : Str) then some (k1 + k2) else none

/-- Matcher for `\s*\(\d+\)$` (ebooksort.py line 172) at one position. -/
def matchParenNum (s : Str) : Option ℕ :=
  let k1 := lenWhile isWsCp s
  match s.drop k1 with
  | 40 :: s2 =>
    let k2 := lenWhile isDigitCp s2
    if k2 = 0 then none
    else
      match s2.drop k2 with
      | [41] => some (k1 + 1 + k2 + 1)
      | _ => none
  | _ => none

/-- `re.sub(pattern, '', s)` for a matcher that consumes at least one
character: scan left to right; at a match, drop the matched characters and
continue scanning right after them.  The first argument is structural fuel
(`subAll` supplies the subject length, which is enough because every step
consumes at least one character of the subject). -/
def subAllGo (m : Str → Option ℕ) : ℕ → Str → Str
  | _, [] => []
  | 0, s => s
  | fuel + 1, c :: cs =>
    match m (c :: cs) with
    | some k => if k = 0 then c :: subAllGo m fuel cs else subAllGo m fuel ((c :: cs).drop k)
    | none => c :: subAllGo m fuel cs

def subAll (m : Str → Option ℕ) (s : Str) : Str := subAllGo m s.length s

/-- The pattern loop of ebooksort.py lines 172–176: each of the six patterns
is erased (globally, case-insensitively) in order, with a `strip()` after
each substitution, then whitespace runs are collapsed and the result is
stripped. -/
def stripMarkers (n0 : Str) : Str :=
  let b1 := stripWs (subAll (matchMarker (codes "par") (some 116)) n0)
  let b2 := stripWs (subAll (matchMarker (codes "chapte") (some 114)) b1)
  let b3 := stripWs (subAll (matchMarker (codes "cap") none) b2)
  let b4 := stripWs (subAll (matchMarker (codes "cd") none) b3)
  let b5 := stripWs (subAll matchTrailNum b4)
  let b6 := stripWs (subAll matchParenNum b5)
  stripWs (collapseWs b6)

/-- ebooksort.py `get_base_name` (lines 170–177): strip the extension, erase
the sequence-marker patterns, and fall back to the extensionless name if the
result is empty. -/
def get_base_name (filename : Str) : Str :=
  let n0 := splitextRoot filename
  if stripMarkers n0 = [] then n0 else stripMarkers n0

/-- A concrete resolved book used for closed instances. -/
def sampleBook : BookData :=
  { title := codes "Dune", author := codes "Frank Herbert", genre := codes "Sci-Fi",
    series := unknownStr, year := codes "1965", synopsis := codes "Desert planet." }

/-- config_manager.py lines 19–25: the dictionary built by the `general`
property (exactly these four keys). -/
structure GeneralSection where
  audio_extensions : List Str
  image_extensions : List Str
  log_filename : Str
  authors_filename : Str

/-- config_manager.py lines 28–33. -/
structure GeminiSection where
  model_name : Str
  prompt : Str
  api_cooldown : ℕ

/-- config_manager.py lines 36–42. -/
structure ValidationSection where
  junk_words : List Str
  name_separators : List Str
  short_name_word_count : ℕ
  ambiguous_name_word_count : ℕ

/-- config_manager.py lines 45–50. -/
structure TaggingSection where
  marker_filename : Str
  album_title_format : Str
  track_title_format : Str

/-- config_manager.py lines 53–56. -/
structure M4bSection where
  audio_bitrate : Str

/-- config_manager.py lines 59–63. -/
structure InventorySection where
  inventory_filename : Str
  csv_delimiter : Str

/-- The ConfigManager instance (config_manager.py lines 4–63): it exposes
exactly the six property groups `general`, `gemini`, `validation`, `tagging`,
`m4b` and `inventory`. -/
structure ConfigManager where
  general : GeneralSection
  gemini : GeminiSection
  validation : ValidationSection
  tagging : TaggingSection
  m4b : M4bSection
  inventory : InventorySection

/-- The `[Covers]` configuration group that `config.covers['min_resolution']`
would have to return. -/
structure CoversSection where
  min_resolution : ℕ

inductive PyErr where
  | attributeError
deriving DecidableEq

/-- The attribute access `config.covers` performed at ebooksort.py line 257
and update_covers.py line 319.  The ConfigManager class defines property
objects for exactly the six names `general`, `gemini`, `validation`,
`tagging`, `m4b`, `inventory` (config_manager.py lines 18–63) and nothing
else, so `config.covers` raises AttributeError on every ConfigManager
instance. -/
def configCovers (_c : ConfigManager) : Except PyErr CoversSection :=
  Except.error PyErr.attributeError

/-- The three shapes of dictionary `analyze_cover` can return:
`missing` is `{"exists": False}` (path not on disk), `analyzed` is the full
quality dictionary, `failed` is `{"exists": True, "error": ...}` (the image
could not be opened). -/
inductive CoverAnalysisResult where
  | missing
  | analyzed (is_square : Bool) (is_low_quality : Bool)
  | failed
deriving DecidableEq

/-- update_covers.py `analyze_cover(image_path, min_resolution)` (lines
27–44), the same body as ebooksort.py lines 258–273 with the minimum
resolution passed in.  The image argument models the file at the path:
`none` = no file, `some none` = present but unreadable, `some (some (w, h))`
= readable with these dimensions. -/
def update_covers_analyze_cover (min_resolution : ℕ) :
    Option (Option (ℕ × ℕ)) → CoverAnalysisResult
  | none => CoverAnalysisResult.missing
  | some none => CoverAnalysisResult.failed
  | some (some (w, h)) =>
    CoverAnalysisResult.analyzed (w == h)
      (decide (w < min_resolution) || decide (h < min_resolution))

/-- ebooksort.py `analyze_cover` (lines 255–273).  Line 257 evaluates
`config.covers['min_resolution']` before the existence check and outside the
`try` block, so the AttributeError raised by the missing `covers` property
propagates out of the function. -/
def analyze_cover (c : ConfigManager) (image : Option (Option (ℕ × ℕ))) :
    Except PyErr CoverAnalysisResult :=
  match configCovers c with
  | Except.error e => Except.error e
  | Except.ok sec => Except.ok (update_covers_analyze_cover sec.min_resolution image)

/-- The quality gate of ebooksort.py line 536:
`analysis.get("is_square") and not analysis.get("is_low_quality")` — for the
`missing` and `failed` dictionaries `.get` returns `None` (falsy). -/
def is_good_cover : CoverAnalysisResult → Bool
  | CoverAnalysisResult.analyzed sq low => sq && !low
  | _ => false

/-- The possible origins of the bytes stored in a destination folder's
`cover.jpg`. -/
inductive CoverSrc where
  | srcImage
  | embedded
  | itunes
  | ddgs
deriving DecidableEq

/-- The cover-related contents of a destination folder: the `cover.jpg` slot
(at most one file of that name can exist) and whether the `itunes_cover.tmp`
download artifact is present. -/
structure CoverFolderState where
  cover : Option CoverSrc
  tmp : Bool
deriving DecidableEq

/-- ebooksort.py `handle_existing_cover_file` (lines 154–168): if the staging
folder still holds an image file, move it to `cover.jpg` unless a `cover.jpg`
already exists (then the duplicate source image is deleted instead). -/
def handle_existing_cover_file (srcHasImage : Bool) (st : CoverFolderState) :
    CoverFolderState × Bool :=
  if srcHasImage then
    if st.cover.isSome then (st, true)
    else ({ st with cover := some CoverSrc.srcImage }, true)
  else (st, false)

/-- ebooksort.py `extract_cover_art` (lines 133–152): written to `cover.jpg`
(overwriting) when the first audio file carries embedded artwork. -/
def extract_cover_art (embeddedArt : Bool) (st : CoverFolderState) :
    CoverFolderState × Bool :=
  if embeddedArt then ({ st with cover := some CoverSrc.embedded }, true) else (st, false)

/-- ebooksort.py lines 536–552 given the analysis dictionary: the quality
gate and its fallbacks.  A good iTunes cover is moved from the tmp path onto
`cover.jpg` (line 540); a failing one is replaced by a DDGS hit when that
download succeeds (lines 545–547; the tmp file stays behind for the cleanup
of lines 558–560) and otherwise promoted to `cover.jpg` itself (lines
549–552).  In the program this block runs only if the `analyze_cover` call
of line 534 returns — see `externalCoverSearch`. -/
def externalCoverBranches (analysis : CoverAnalysisResult) (ddgsOk : Bool)
    (stTmp : CoverFolderState) : CoverFolderState × Bool :=
  if is_good_cover analysis then
    ({ stTmp with cover := some CoverSrc.itunes, tmp := false }, true)
  else if ddgsOk then ({ stTmp with cover := some CoverSrc.ddgs }, true)
  else ({ stTmp with cover := some CoverSrc.itunes, tmp := false }, true)

/-- ebooksort.py lines 527–560: the external search.  A successful iTunes
download writes `itunes_cover.tmp` and then calls `analyze_cover` (line 534),
which raises AttributeError on every call (`configCovers`); the exception
propagates out of this block, so the quality gate, the DDGS fallback and the
promote-original branches are never reached and the tmp cleanup of lines
558–560 is skipped, leaving `itunes_cover.tmp` on disk.  When the iTunes
download fails, `analyze_cover` is not called and the direct DDGS download
of lines 553–556 still runs.  `itunesDl` is `none` when
`download_cover_from_itunes` returns False, otherwise the downloaded image
as in `update_covers_analyze_cover`; `ddgsOk` tells whether
`download_cover_from_internet` succeeds (it writes directly to `cover.jpg`).
Returns the folder state and the outcome, `Except.error` being the exception
that escapes to the per-folder handler at ebooksort.py line 631. -/
def externalCoverSearch (c : ConfigManager) (itunesDl : Option (Option (ℕ × ℕ)))
    (ddgsOk : Bool) (st : CoverFolderState) : CoverFolderState × Except PyErr Bool :=
  match itunesDl with
  | some img =>
    let stTmp := { st with tmp := true }
    match analyze_cover c (some img) with
    | Except.error e => (stTmp, Except.error e)
    | Except.ok analysis =>
      let step := externalCoverBranches analysis ddgsOk stTmp
      ({ step.1 with tmp := false }, Except.ok step.2)
  | none =>
    if ddgsOk then ({ st with cover := some CoverSrc.ddgs }, Except.ok true)
    else (st, Except.ok false)

/-- ebooksort.py lines 522–560: the full cover-resolution chain for one book
(existing file → embedded artwork → external search), short-circuiting at
the first success; the external phase can abort the folder with the
AttributeError raised inside `analyze_cover`. -/
def cover_resolution (c : ConfigManager) (srcHasImage embeddedArt : Bool)
    (itunesDl : Option (Option (ℕ × ℕ))) (ddgsOk : Bool) (st0 : CoverFolderState) :
    CoverFolderState × Except PyErr Bool :=
  let r1 := handle_existing_cover_file srcHasImage st0
  if r1.2 then (r1.1, Except.ok true)
  else
    let r2 := extract_cover_art embeddedArt r1.1
    if r2.2 then (r2.1, Except.ok true)
    else externalCoverSearch c itunesDl ddgsOk r2.1

/-- Number of files named `cover.jpg` in the folder (the model stores the
folder's single `cover.jpg` slot plus the differently-named tmp file). -/
def coverJpgCount (st : CoverFolderState) : ℕ := if st.cover.isSome then 1 else 0

/-- A concrete ConfigManager instance for closed instances.  The section
values are immaterial: the class defines no `covers` property whatever the
config.ini file holds. -/
def sampleConfig : ConfigManager :=
  { general :=
      { audio_extensions := [codes ".mp3"], image_extensions := [codes ".jpg"],
        log_filename := codes "ebooksort.log", authors_filename := codes "autores.txt" }
    gemini :=
      { model_name := codes "gemini-pro", prompt := codes "prompt", api_cooldown := 5 }
    validation :=
      { junk_words := [], name_separators := [], short_name_word_count := 2,
        ambiguous_name_word_count := 3 }
    tagging :=
      { marker_filename := codes ".tags_written", album_title_format := codes "album",
        track_title_format := codes "track" }
    m4b := { audio_bitrate := codes "64k" }
    inventory := { inventory_filename := codes "inventory.csv", csv_delimiter := codes ";" } }

/-- Externally observable events of one iteration of the organize_audio_files
book loop: the two metadata-source calls, a cooldown sleep
(`time.sleep(config.gemini['api_cooldown'])`), and the placement action. -/
inductive REv where
  | gbCall
  | geminiCall
  | sleep
  | placeBook
  | moveUnclassified
deriving DecidableEq

/-- ebooksort.py `get_book_info_from_gemini` (lines 66–94), not dry-run.  The
external call either yields a parsed book dictionary (the parser defaults
every missing key to "Unknown" and cannot fail) or raises, in which case the
`except` at lines 90–92 returns None; the `finally` at lines 93–94 emits the
cooldown sleep on both paths.  Returns the result and the emitted event
trace. -/
def get_book_info_from_gemini (outcome : Option BookData) : Option BookData × List REv :=
  match outcome with
  | some bd => (some bd, [REv.geminiCall, REv.sleep])
  | none => (none, [REv.geminiCall, REv.sleep])

/-- ebooksort.py `get_book_info_from_google_books` (lines 96–124): returns a
dictionary or None (no results, or any exception); it has no cooldown of its
own. -/
def get_book_info_from_google_books (outcome : Option BookData) :
    Option BookData × List REv :=
  (outcome, [REv.gbCall])

/-- ebooksort.py line 496: `force_gemini or not book_data or
book_data["title"] == "Unknown"`. -/
def needsGemini (forceGemini : Bool) : Option BookData → Bool
  | none => true
  | some b => forceGemini || b.title == unknownStr

/-- ebooksort.py lines 489–503: try Google Books first unless `force_gemini`;
fall back to Gemini when forced, when there is no result, or when the title
is "Unknown". -/
def classifyBook (forceGemini : Bool) (gb gem : Option BookData) :
    Option BookData × List REv :=
  let r1 : Option BookData × List REv :=
    if forceGemini then (none, []) else get_book_info_from_google_books gb
  if needsGemini forceGemini r1.1 then
    let r2 := get_book_info_from_gemini gem
    (r2.1, r1.2 ++ r2.2)
  else r1

/-- One full iteration of the organize_audio_files folder loop for a folder
holding audio files (ebooksort.py lines 480–634), not dry-run:
classification, then placement (classified branch) or the unclassified move,
then the per-folder `finally` cooldown of lines 633–634, which fires for
every processed folder whether or not a generative call occurred. -/
def processFolderEvents (forceGemini : Bool) (gb gem : Option BookData) : List REv :=
  let r := classifyBook forceGemini gb gem
  r.2 ++ (if classifiedBook r.1 then [REv.placeBook] else [REv.moveUnclassified]) ++ [REv.sleep]

/-- One directory of the library tree as write_tags.py sees it: whether it
holds metadata.json, whether that file parses, whether the marker file
exists, its audio files, and its subdirectories. -/
inductive FsTree where
  | dir (hasMetadata jsonOk hasMarker : Bool) (audioFiles : List Str) (subdirs : List FsTree)

def FsTree.hasMetadata : FsTree → Bool
  | FsTree.dir md _ _ _ _ => md

def FsTree.hasMarker : FsTree → Bool
  | FsTree.dir _ _ mk _ _ => mk

/-- Observable events of a write_tags.py run: one tag write per audio file
(`tag_audio_file`), the marker-file creation, and the "Skipping folder
(already processed)" report. -/
inductive TEv where
  | tagWrite (file : Str)
  | markerCreate
  | skipReport
deriving DecidableEq

/-- The `--mode` values write_tags.py walks books with (the fix-covers and
fix-comments modes take separate branches of `main`). -/
inductive TagMode where
  | smart
  | all
  | tagsOnly
  | coverOnly
deriving DecidableEq

/-- write_tags.py `process_book_folder` (lines 230–284), as the events for
one book directory: skip when metadata.json is absent or unparseable or no
audio file exists; otherwise tag every audio file in natural-sort order and,
for the `smart` and `all` modes, create the marker file.  Returns whether the
marker was created, and the events. -/
def process_book_folder (mode : TagMode) (hasMetadata jsonOk : Bool) (audio : List Str) :
    Bool × List TEv :=
  if hasMetadata = false then (false, [])
  else if jsonOk = false then (false, [])
  else if audio = [] then (false, [])
  else
    let writes := (sort_audio_files audio).map TEv.tagWrite
    if mode = TagMode.smart ∨ mode = TagMode.all then (true, writes ++ [TEv.markerCreate])
    else (false, writes)

mutual

/-- The walk of write_tags.py `main` (lines 448–459): a directory containing
metadata.json is a book boundary — in `smart` mode it is skipped outright
when the marker exists, otherwise processed — and its subdirectories are
pruned (`dirs[:] = []`) in both cases; other directories are recursed into.
Returns the directory state after the run and the emitted events. -/
def runTagger (mode : TagMode) : FsTree → FsTree × List TEv
  | FsTree.dir md ok mk audio subs =>
    if md then
      if mode = TagMode.smart ∧ mk then
        (FsTree.dir md ok mk audio subs, [TEv.skipReport])
      else
        let r := process_book_folder mode md ok audio
        (FsTree.dir md ok (mk || r.1) audio subs, r.2)
    else
      let rs := runTaggerList mode subs
      (FsTree.dir md ok mk audio rs.1, rs.2)

def runTaggerList (mode : TagMode) : List FsTree → List FsTree × List TEv
  | [] => ([], [])
  | t :: ts =>
    let r := runTagger mode t
    let rs := runTaggerList mode ts
    (r.1 :: rs.1, r.2 ++ rs.2)

end

/-- Number of per-file tag writes among the events. -/
def countWrites (evs : List TEv) : ℕ :=
  (evs.filter (fun e => match e with | TEv.tagWrite _ => true | _ => false)).length

mutual

/-- Every book directory of the tree that a smart run would process (has
parseable metadata.json and audio files) already carries the marker. -/
def MarkedProp : FsTree → Prop
  | FsTree.dir md ok mk _audio subs =>
    (md = true → ok = true → _audio ≠ [] → mk = true) ∧
    (md = false → MarkedListProp subs)

def MarkedListProp : List FsTree → Prop
  | [] => True
  | t :: ts => MarkedProp t ∧ MarkedListProp ts

end

/-- Python `item.lower().endswith(tuple(exts))` (ebooksort.py line 239). -/
def endswithAny (exts : List Str) (item : Str) : Bool :=
  exts.any (fun e => e.isSuffixOf (pyLower item))

/-- `base_name_map[base_name].append(item)` on a `defaultdict(list)` kept as
an association list in key-insertion order, values in append order. -/
def addToGroups : List (Str × List Str) → Str → Str → List (Str × List Str)
  | [], k, f => [(k, [f])]
  | (k', fs) :: rest, k, f =>
    if k' = k then (k', fs ++ [f]) :: rest else (k', fs) :: addToGroups rest k f

/-- One iteration of the grouping loop of ebooksort.py lines 232–241 for a
loose file: a file with a recognized audio or image extension joins the group
keyed by its `get_base_name` (skipped when that is empty); other files are
ignored. -/
def groupStep (audioExts imageExts : List Str) (m : List (Str × List Str)) (item : Str) :
    List (Str × List Str) :=
  if endswithAny audioExts item || endswithAny imageExts item then
    if get_base_name item = [] then m else addToGroups m (get_base_name item) item
  else m

/-- The grouping loop of ebooksort.py lines 230–241 over the loose files
(directories were already moved wholesale before this point). -/
def base_name_map (audioExts imageExts : List Str) (files : List Str) :
    List (Str × List Str) :=
  files.foldl (groupStep audioExts imageExts) []

/-- `any(f.lower().endswith(audio_extensions) for f in file_list)`
(ebooksort.py line 244). -/
def groupHasAudio (audioExts : List Str) (fs : List Str) : Bool :=
  fs.any (endswithAny audioExts)

/-- ebooksort.py lines 243–253: for every group holding at least one audio
file a staging subfolder named from the sanitized title-cased base name is
created and all member files are moved into it; groups without audio are
skipped by the `continue` at line 244. -/
def stagedFolders (audioExts : List Str) (m : List (Str × List Str)) :
    List (Str × List Str) :=
  (m.filter (fun g => groupHasAudio audioExts g.2)).map
    (fun g => (sanitize_filename (pyTitle g.1), g.2))

/-- The files moved out of the source directory by the loop of lines 243–253:
exactly the members of the audio-bearing groups. -/
def movedFiles (audioExts : List Str) (m : List (Str × List Str)) : List Str :=
  (m.filter (fun g => groupHasAudio audioExts g.2)).flatMap (fun g => g.2)

/-- The loose files still in the source directory after the grouping phase. -/
def sourceRemaining (audioExts imageExts : List Str) (files : List Str) : List Str :=
  files.filter
    (fun f => decide (f ∉ movedFiles audioExts (base_name_map audioExts imageExts files)))


theorem chaptersGo_contiguous (dur : Str → Option ℚ) :
    ∀ (fs : List Str) (i : ℕ) (t : ℚ), ChaptersContiguous dur t (chaptersGo dur i t fs)
  | [], _, _ => trivial
  | f :: fs, i, t => by
    simp only [chaptersGo]
    cases h : dur f with
    | none => exact chaptersGo_contiguous dur fs (i + 1) t
    | some d =>
      exact ⟨rfl, ⟨f, d, h, rfl, rfl⟩, chaptersGo_contiguous dur fs (i + 1) (t + d)⟩

theorem chaptersGo_titles (dur : Str → Option ℚ) :
    ∀ (fs : List Str) (i : ℕ) (t : ℚ),
      (chaptersGo dur i t fs).map Chapter.title
        = (fs.filter (fun f => (dur f).isSome)).map chapterTitleOf
  | [], _, _ => rfl
  | f :: fs, i, t => by
    cases h : dur f with
    | none => simp [chaptersGo, h, chaptersGo_titles dur fs (i + 1) t]
    | some d => simp [chaptersGo, h, chaptersGo_titles dur fs (i + 1) (t + d)]

/-- C10: every chapters list written into metadata.json is time-contiguous:
if non-empty, the first chapter starts at 0.0, each chapter's end is its start
plus the duration of its audio file, and each later chapter starts where the
previous one ended. -/
theorem claim_C10_chapters_time_contiguous (dur : Str → Option ℚ) (files : List Str) :
    ChaptersContiguous dur 0 (buildChapters dur files) :=
  chaptersGo_contiguous dur (pySorted files) 0 0

/-- C10 witness: the theorem instantiated at a concrete two-file folder. -/
theorem claim_C10_chapters_time_contiguous_witness :
    ChaptersContiguous (fun _ => some 0) 0
      (buildChapters (fun _ => some 0) [codes "b.mp3", codes "a.mp3"]) :=
  claim_C10_chapters_time_contiguous (fun _ => some 0) [codes "b.mp3", codes "a.mp3"]

/-- C1 counterexample: for the title directory holding ch1.mp3, ch10.mp3 and
ch2.mp3, the chapters list built by organize_audio_files (ebooksort.py lines
563–577, which sorts with the plain lexicographic `sorted`) lists the chapters
in the order ch1, ch10, ch2 — not the natural order ch1, ch2, ch10 the claim
asserts (the order write_tags.sort_audio_files would give). -/
theorem claim_C1_counterexample :
    (buildChapters (fun _ => some 1) [codes "ch1.mp3", codes "ch10.mp3", codes "ch2.mp3"]).map
        Chapter.title
      = [codes "Ch1", codes "Ch10", codes "Ch2"] ∧
    sort_audio_files [codes "ch1.mp3", codes "ch10.mp3", codes "ch2.mp3"]
      = [codes "ch1.mp3", codes "ch2.mp3", codes "ch10.mp3"] ∧
    (buildChapters (fun _ => some 1) [codes "ch1.mp3", codes "ch10.mp3", codes "ch2.mp3"]).map
        Chapter.title
      ≠ [codes "Ch1", codes "Ch2", codes "Ch10"] := by
  refine ⟨by decide, by decide, by decide⟩

/-- C1 amended: when LibraryPlacer builds the chapters list, the audio files
are processed in plain lexicographic (code-point) sorted order — Python's
default `sorted`, not natural sort — and the chapter entries are exactly the
readable files in that order (natural sort is used by write_tags for track
numbering, not for chapter building). -/
theorem claim_C1_amended (dur : Str → Option ℚ) (files : List Str) :
    List.Sorted (· ≤ ·) (pySorted files) ∧
    (buildChapters dur files).map Chapter.title
      = ((pySorted files).filter (fun f => (dur f).isSome)).map chapterTitleOf :=
  ⟨List.sorted_insertionSort _ files, chaptersGo_titles dur (pySorted files) 0 0⟩

theorem takeWhile_append_all {p : ℕ → Bool} :
    ∀ {l₁ l₂ : Str}, (∀ a ∈ l₁, p a = true) →
      (l₁ ++ l₂).takeWhile p = l₁ ++ l₂.takeWhile p
  | [], _, _ => rfl
  | a :: l₁, l₂, h => by
    have ha : p a = true := h a (by simp)
    simp only [List.cons_append, List.takeWhile_cons, ha, if_true]
    rw [takeWhile_append_all (fun b hb => h b (by simp [hb]))]

theorem dropWhile_append_all {p : ℕ → Bool} :
    ∀ {l₁ l₂ : Str}, (∀ a ∈ l₁, p a = true) →
      (l₁ ++ l₂).dropWhile p = l₂.dropWhile p
  | [], _, _ => rfl
  | a :: l₁, l₂, h => by
    have ha : p a = true := h a (by simp)
    simp only [List.cons_append, List.dropWhile_cons, ha, if_true]
    exact dropWhile_append_all (fun b hb => h b (by simp [hb]))

theorem getLast?_eq_reverse_head? (l : Str) : l.getLast? = l.reverse.head? := by
  induction l using List.reverseRecOn with
  | nil => rfl
  | append_singleton t a _ =>
    rw [List.getLast?_append_of_ne_nil _ (by simp), List.reverse_append]
    rfl

theorem splitPath_joinPath (base name : Str) (hb : base ≠ [])
    (hlast : base.getLast? ≠ some 47) (hname : ∀ c ∈ name, c ≠ 47) :
    splitPath (joinPath base name) = (base, name) := by
  have hjoin : joinPath base name = base ++ 47 :: name := by
    rw [joinPath, if_neg hb, if_neg hlast]
  have hrev : (base ++ 47 :: name).reverse = name.reverse ++ 47 :: base.reverse := by
    rw [List.reverse_append, List.reverse_cons, List.append_assoc]
    rfl
  have hall : ∀ a ∈ name.reverse, (a != 47) = true := by
    intro a ha
    simpa using hname a (List.mem_reverse.mp ha)
  have htake : ((base ++ 47 :: name).reverse).takeWhile (fun c => c != 47) = name.reverse := by
    rw [hrev, takeWhile_append_all hall]
    simp [List.takeWhile_cons]
  have hdrop : ((base ++ 47 :: name).reverse).dropWhile (fun c => c != 47) = 47 :: base.reverse := by
    rw [hrev, dropWhile_append_all hall]
    simp [List.dropWhile_cons]
  have hbr : base.reverse.dropWhile (fun c => c == 47) = base.reverse := by
    cases h : base.reverse with
    | nil => rfl
    | cons a t =>
      have ha : a ≠ 47 := by
        intro h47
        apply hlast
        rw [getLast?_eq_reverse_head?, h, h47]
        rfl
      simp [List.dropWhile_cons, ha]
  have hbne : base.reverse ≠ [] := by simpa using hb
  rw [hjoin, splitPath]
  simp only [htake, hdrop, List.dropWhile_cons, show ((47 : ℕ) == 47) = true from rfl,
    if_true, hbr, if_neg hbne, List.reverse_reverse]

theorem find_unique_free (occupied : List Str) (path : Str)
    (h : occupied.contains path = false) :
    find_unique_foldername occupied path = path := by
  rw [find_unique_foldername, if_neg]
  simpa using h

theorem find_unique_first_suffix (occupied : List Str) (base name : Str)
    (hb : base ≠ []) (hlast : base.getLast? ≠ some 47) (hname : ∀ c ∈ name, c ≠ 47)
    (h1 : occupied.contains (joinPath base name) = true)
    (h2 : occupied.contains (joinPath base (mkSuffixName name 2)) = false) :
    find_unique_foldername occupied (joinPath base name)
      = joinPath base (mkSuffixName name 2) := by
  rw [find_unique_foldername, if_pos h1, splitPath_joinPath base name hb hlast hname]
  have h2' : ¬ joinPath base (mkSuffixName name 2) ∈ occupied := by simpa using h2
  simp [findUniqueGo, h2']

theorem unclassifiedDir_getLast? (d : Str) : (unclassifiedDirOf d).getLast? = some 100 := by
  rw [unclassifiedDirOf, joinPath]
  by_cases hd : d = []
  · rw [if_pos hd]
    decide
  · rw [if_neg hd]
    by_cases hl : d.getLast? = some 47
    · rw [if_pos hl, List.getLast?_append_of_ne_nil _ (by decide)]
      decide
    · rw [if_neg hl, List.getLast?_append_of_ne_nil _ (by simp)]
      decide

theorem unclassifiedDir_ne_nil (d : Str) : unclassifiedDirOf d ≠ [] := by
  intro h
  have h100 := unclassifiedDir_getLast? d
  rw [h] at h100
  simp at h100

/-- C2 counterexample: two book groups that resolve to the identical
Author/Title pair are placed at the SAME final folder path
(`os.makedirs(..., exist_ok=True)`, ebooksort.py line 512) — the second path
is not distinct and carries no " (2)" suffix, even though the folder already
exists; `find_unique_foldername` is never consulted for the main-library
placement. -/
theorem claim_C2_counterexample :
    (placeClassifiedBook (codes "/library")
        ((placeClassifiedBook (codes "/library") [] sampleBook).2) sampleBook).1
      = (placeClassifiedBook (codes "/library") [] sampleBook).1 ∧
    (placeClassifiedBook (codes "/library")
        ((placeClassifiedBook (codes "/library") [] sampleBook).2) sampleBook).1
      ≠ (placeClassifiedBook (codes "/library") [] sampleBook).1 ++ codes " (2)" ∧
    ((placeClassifiedBook (codes "/library") [] sampleBook).2).contains
        (placeClassifiedBook (codes "/library") [] sampleBook).1 = true := by
  exact ⟨by decide, by decide, by decide⟩

/-- C2 amended: placing a second classified book with the identical sanitized
Author/Title pair reuses the identical main-library folder (the groups are
merged, no suffix); the uniqueness-suffix algorithm (scan upward from 2) is
applied only to the no-cover quarantine and unclassified destinations, where
a second same-named folder does get the " (2)" suffix and a distinct path. -/
theorem claim_C2_amended (destRoot : Str) (st : List Str) (b : BookData)
    (occupied : List Str) (base name : Str)
    (hb : base ≠ []) (hlast : base.getLast? ≠ some 47) (hname : ∀ c ∈ name, c ≠ 47)
    (h1 : occupied.contains (joinPath base name) = true)
    (h2 : occupied.contains (joinPath base (mkSuffixName name 2)) = false) :
    (placeClassifiedBook destRoot ((placeClassifiedBook destRoot st b).2) b).1
      = (placeClassifiedBook destRoot st b).1 ∧
    find_unique_foldername occupied (joinPath base name)
      = joinPath base (mkSuffixName name 2) ∧
    joinPath base (mkSuffixName name 2) ≠ joinPath base name := by
  refine ⟨rfl, find_unique_first_suffix occupied base name hb hlast hname h1 h2, ?_⟩
  intro heq
  have hlen := congrArg List.length heq
  rw [joinPath, if_neg hb, if_neg hlast, joinPath, if_neg hb, if_neg hlast] at hlen
  have hd : natDigits 2 = [50] := rfl
  rw [mkSuffixName, hd] at hlen
  simp [List.length_append] at hlen

/-- C2 amended witness: concrete instance — the merged main-library path and
a second "Dune" folder moved under an occupied unclassified path getting the
" (2)" suffix. -/
theorem claim_C2_amended_witness :
    (placeClassifiedBook (codes "/library")
        ((placeClassifiedBook (codes "/library") [] sampleBook).2) sampleBook).1
      = (placeClassifiedBook (codes "/library") [] sampleBook).1 ∧
    find_unique_foldername [codes "/lib/unclassified/Dune"]
        (joinPath (codes "/lib/unclassified") (codes "Dune"))
      = joinPath (codes "/lib/unclassified") (mkSuffixName (codes "Dune") 2) ∧
    joinPath (codes "/lib/unclassified") (mkSuffixName (codes "Dune") 2)
      ≠ joinPath (codes "/lib/unclassified") (codes "Dune") :=
  claim_C2_amended (codes "/library") [] sampleBook [codes "/lib/unclassified/Dune"]
    (codes "/lib/unclassified") (codes "Dune") (by decide) (by decide) (by decide)
    (by decide) (by decide)

/-- C8: a staged folder whose metadata resolution yields no result, or the
title "Unknown", is relocated unmodified — same contents, original basename
preserved (suffixed only on collision) — under the unclassified root, and no
metadata.json is created for it (the classified branch, which alone writes
metadata.json at ebooksort.py lines 584–586, is not taken). -/
theorem claim_C8_unclassified_relocation (destRoot : Str) (occupied : List Str)
    (folderName : Str) (contents : List Str) (bd : Option BookData)
    (hbd : bd = none ∨ ∃ b, bd = some b ∧ b.title = unknownStr)
    (hn47 : ∀ c ∈ folderName, c ≠ 47) :
    processGroupStep destRoot occupied folderName contents bd
      = GroupOutcome.unclassified
          (find_unique_foldername occupied (joinPath (unclassifiedDirOf destRoot) folderName))
          ((splitPath (find_unique_foldername occupied
              (joinPath (unclassifiedDirOf destRoot) folderName))).2, contents) ∧
    (occupied.contains (joinPath (unclassifiedDirOf destRoot) folderName) = false →
      processGroupStep destRoot occupied folderName contents bd
        = GroupOutcome.unclassified (joinPath (unclassifiedDirOf destRoot) folderName)
            (folderName, contents)) := by
  have hmain : processGroupStep destRoot occupied folderName contents bd
      = GroupOutcome.unclassified
          (find_unique_foldername occupied (joinPath (unclassifiedDirOf destRoot) folderName))
          ((splitPath (find_unique_foldername occupied
              (joinPath (unclassifiedDirOf destRoot) folderName))).2, contents) := by
    rcases hbd with h | ⟨b, hsome, ht⟩
    · subst h
      rfl
    · subst hsome
      simp [processGroupStep, ht, relocate_unclassified]
  refine ⟨hmain, fun h => ?_⟩
  rw [hmain, find_unique_free _ _ h,
    splitPath_joinPath _ _ (unclassifiedDir_ne_nil destRoot)
      (by rw [unclassifiedDir_getLast?]; simp) hn47]

/-- C8 witness: a concrete unresolved group is moved wholesale, with its name
and contents intact, to `<dest>/unclassified/<name>`. -/
theorem claim_C8_unclassified_relocation_witness :
    processGroupStep (codes "/lib") [] (codes "Mystery Book") [codes "a.mp3"] none
      = GroupOutcome.unclassified
          (joinPath (unclassifiedDirOf (codes "/lib")) (codes "Mystery Book"))
          (codes "Mystery Book", [codes "a.mp3"]) :=
  (claim_C8_unclassified_relocation (codes "/lib") [] (codes "Mystery Book") [codes "a.mp3"]
      none (Or.inl rfl) (by decide)).2 (by decide)

theorem splitextRoot_ne_nil (name : Str) (h : name ≠ []) : splitextRoot name ≠ [] := by
  rw [splitextRoot]
  split
  · exact h
  · split
    · rename_i beforeRev hany
      intro hcon
      rw [List.reverse_eq_nil_iff] at hcon
      rw [hcon] at hany
      simp at hany
    · exact h

theorem get_base_name_ne_nil (filename : Str) (h : filename ≠ []) :
    get_base_name filename ≠ [] := by
  rw [get_base_name]
  by_cases hb : stripMarkers (splitextRoot filename) = []
  · simpa [hb] using splitextRoot_ne_nil filename h
  · simp [hb]

/-- C5 counterexample: `get_base_name` does NOT remove the markers
"capitulo N" and "disc N" the claim lists.  The pattern `[\s_-]+cap\s*\d+`
requires the digits right after "cap", so "capitulo 3" does not match it (only
the bare trailing integer is removed, leaving "capitulo"); there is no "disc"
pattern at all (only "cd"). -/
theorem claim_C5_counterexample :
    get_base_name (codes "Book capitulo 3.mp3") = codes "Book capitulo" ∧
    codes "Book capitulo" ≠ codes "Book" ∧
    get_base_name (codes "Book disc 2.mp3") = codes "Book disc" ∧
    codes "Book disc" ≠ codes "Book" := by
  exact ⟨by decide, by decide, by decide, by decide⟩

/-- C5 amended: `get_base_name` strips the extension and iteratively removes,
case-insensitively, the markers "par[t] N", "chapte[r] N", "cap N", "cd N"
(each preceded by whitespace/underscore/hyphen), a bare trailing integer
preceded by such separators, and a trailing "(N)"; it collapses whitespace
runs, and — if stripping leaves an empty string — returns the original name
minus extension unchanged, so the result is never empty for a non-empty
filename.  (It does not remove the full Spanish "capitulo N" nor "disc N";
for those only the trailing integer is removed.) -/
theorem claim_C5_amended (filename : Str) (h : filename ≠ []) :
    get_base_name filename ≠ [] ∧
    get_base_name (codes "Story part 3.mp3") = codes "Story" ∧
    get_base_name (codes "Story chapter 3.mp3") = codes "Story" ∧
    get_base_name (codes "Story cap 3.mp3") = codes "Story" ∧
    get_base_name (codes "Story cd 3.mp3") = codes "Story" ∧
    get_base_name (codes "Story - 3.mp3") = codes "Story" ∧
    get_base_name (codes "Story (3).mp3") = codes "Story" ∧
    get_base_name (codes "STORY_Part 12.mp3") = codes "STORY" ∧
    get_base_name (codes "Story  .mp3") = codes "Story" :=
  ⟨get_base_name_ne_nil filename h, by decide, by decide, by decide, by decide,
    by decide, by decide, by decide, by decide⟩

/-- C5 amended witness. -/
theorem claim_C5_amended_witness :
    get_base_name (codes "x.mp3") ≠ [] ∧
    get_base_name (codes "Story part 3.mp3") = codes "Story" ∧
    get_base_name (codes "Story chapter 3.mp3") = codes "Story" ∧
    get_base_name (codes "Story cap 3.mp3") = codes "Story" ∧
    get_base_name (codes "Story cd 3.mp3") = codes "Story" ∧
    get_base_name (codes "Story - 3.mp3") = codes "Story" ∧
    get_base_name (codes "Story (3).mp3") = codes "Story" ∧
    get_base_name (codes "STORY_Part 12.mp3") = codes "STORY" ∧
    get_base_name (codes "Story  .mp3") = codes "Story" :=
  claim_C5_amended (codes "x.mp3") (by decide)

/-- C3 (code bug): the quality gate's acceptance condition on a readable
image is indeed "square AND both dimensions at least the minimum resolution"
(second conjunct, stated for the shared analysis body that update_covers.py
uses), but ebooksort's evaluation never returns a result: for every
ConfigManager instance and every candidate image, `analyze_cover` raises
AttributeError at line 257, because ConfigManager defines no `covers`
property from which the configured minimum resolution could be obtained. -/
theorem claim_C3_analyze_cover_attribute_error :
    (∀ (c : ConfigManager) (image : Option (Option (ℕ × ℕ))),
      analyze_cover c image = Except.error PyErr.attributeError) ∧
    (∀ w h minRes : ℕ,
      is_good_cover (update_covers_analyze_cover minRes (some (some (w, h)))) = true
        ↔ (w = h ∧ minRes ≤ w ∧ minRes ≤ h)) := by
  constructor
  · intro c image
    rfl
  · intro w h minRes
    simp [update_covers_analyze_cover, is_good_cover]

/-- C6 (code bug): the external-path quality gate is dead code.  Whenever
the iTunes download succeeds, the `analyze_cover` call at ebooksort.py line
534 raises the AttributeError of the missing `covers` property (claim C3)
for every ConfigManager instance: the folder iteration aborts with the
error, no cover.jpg is written on this path, and `itunes_cover.tmp` is left
on disk (the cleanup of lines 558–560 is skipped) — so the claimed
overwrite-iff-replacement and promote-on-failure behaviour cannot occur.
The fourth conjunct proves that behaviour on the branch code of lines
536–552 as written (reachable only after the analysis returns): a
gate-failing iTunes hit is overwritten exactly when DDGS succeeds, and
otherwise promoted to cover.jpg with the tmp slot cleared and success
reported.  The last conjunct shows the one still-live external path: when
the iTunes download fails, the direct DDGS download produces cover.jpg. -/
theorem claim_C6_cover_gate_dead_path (c : ConfigManager) (ddgsOk : Bool)
    (st0 : CoverFolderState) (img : Option (ℕ × ℕ)) :
    (cover_resolution c false false (some img) ddgsOk st0).2
        = Except.error PyErr.attributeError ∧
    (cover_resolution c false false (some img) ddgsOk st0).1 = { st0 with tmp := true } ∧
    coverJpgCount (cover_resolution c false false (some img) ddgsOk st0).1 ≤ 1 ∧
    (∀ analysis stTmp, is_good_cover analysis = false →
      ((externalCoverBranches analysis ddgsOk stTmp).1.cover = some CoverSrc.ddgs
          ↔ ddgsOk = true) ∧
      (ddgsOk = false →
        (externalCoverBranches analysis ddgsOk stTmp).1.cover = some CoverSrc.itunes ∧
        (externalCoverBranches analysis ddgsOk stTmp).1.tmp = false ∧
        (externalCoverBranches analysis ddgsOk stTmp).2 = true)) ∧
    ((cover_resolution c false false none true st0).1.cover = some CoverSrc.ddgs ∧
      (cover_resolution c false false none true st0).2 = Except.ok true) := by
  refine ⟨rfl, rfl, ?_, ?_, rfl, rfl⟩
  · show coverJpgCount { st0 with tmp := true } ≤ 1
    rw [coverJpgCount]
    split_ifs <;> simp
  · intro analysis stTmp hfail
    cases ddgsOk <;> simp [externalCoverBranches, hfail]

/-- C6 witness: with a concrete configuration and a 300×300 iTunes hit the
chain aborts with AttributeError; on the branch code, a gate-failing
analysis with DDGS unavailable promotes the iTunes candidate. -/
theorem claim_C6_cover_gate_dead_path_witness :
    (cover_resolution sampleConfig false false (some (some (300, 300))) false
        { cover := none, tmp := false }).2 = Except.error PyErr.attributeError ∧
    (externalCoverBranches (CoverAnalysisResult.analyzed true true) false
        { cover := none, tmp := true }).1.cover = some CoverSrc.itunes := by
  have h := claim_C6_cover_gate_dead_path sampleConfig false
    { cover := none, tmp := false } (some (300, 300))
  exact ⟨h.1, ((h.2.2.2.1 (CoverAnalysisResult.analyzed true true)
    { cover := none, tmp := true } (by decide)).2 rfl).1⟩

/-- C4 counterexample: a book resolved through the generative source incurs
TWO fixed cooldown delays, not exactly one — one from the call's own
`finally` (ebooksort.py line 94) and one from the folder-level `finally`
(line 634) — shown here for a forced-Gemini call that fails with an error:
the trace holds 1 generative call but 2 cooldown sleeps. -/
theorem claim_C4_counterexample :
    (processFolderEvents true none none).count REv.geminiCall = 1 ∧
    (processFolderEvents true none none).count REv.sleep = 2 := by
  exact ⟨by decide, by decide⟩

/-- C4 amended: the generative-source function itself applies exactly one
cooldown per call, also when the call fails (its `finally` fires on both
paths); in addition organize_audio_files applies one cooldown per processed
folder in its own `finally` whether or not a generative call occurred, so a
book resolution sleeps (number of generative-source calls) + 1 times, with at
most one generative-source call per book. -/
theorem claim_C4_amended (forceGemini : Bool) (gb gem : Option BookData) :
    (get_book_info_from_gemini gem).2.count REv.sleep = 1 ∧
    (processFolderEvents forceGemini gb gem).count REv.sleep
      = (processFolderEvents forceGemini gb gem).count REv.geminiCall + 1 ∧
    (processFolderEvents forceGemini gb gem).count REv.geminiCall ≤ 1 := by
  refine ⟨?_, ?_, ?_⟩ <;>
    cases gem <;> rcases gb with _ | b <;> cases forceGemini <;>
      simp only [get_book_info_from_gemini, processFolderEvents, classifyBook, needsGemini,
        get_book_info_from_google_books, classifiedBook] <;>
      (try split_ifs) <;>
      simp_all [List.count_append, List.count_cons, List.count_nil]

theorem countWrites_append (a b : List TEv) :
    countWrites (a ++ b) = countWrites a + countWrites b := by
  simp [countWrites, List.filter_append]

mutual

theorem marked_no_writes : ∀ t : FsTree, MarkedProp t →
    countWrites (runTagger TagMode.smart t).2 = 0
  | FsTree.dir md ok mk audio subs, h => by
    cases md with
    | true =>
      by_cases hmk : mk = true
      · simp [runTagger, hmk, countWrites]
      · have hcase : ok = false ∨ audio = [] := by
          rcases Bool.eq_false_or_eq_true ok with ho | ho
          · by_cases ha : audio = []
            · exact Or.inr ha
            · exact absurd (h.1 rfl ho ha) hmk
          · exact Or.inl ho
        rcases hcase with hok | ha
        · subst hok
          simp [runTagger, hmk, process_book_folder, countWrites]
        · subst ha
          simp [runTagger, hmk, process_book_folder, countWrites]
    | false =>
      have hl := h.2 rfl
      simpa [runTagger, countWrites] using marked_no_writes_list subs hl

theorem marked_no_writes_list : ∀ ts : List FsTree, MarkedListProp ts →
    countWrites (runTaggerList TagMode.smart ts).2 = 0
  | [], _ => by simp [runTaggerList, countWrites]
  | t :: ts, h => by
    have h1 := marked_no_writes t h.1
    have h2 := marked_no_writes_list ts h.2
    simp [runTaggerList, countWrites_append, h1, h2]

end

mutual

theorem marked_after_run : ∀ t : FsTree, MarkedProp (runTagger TagMode.smart t).1
  | FsTree.dir md ok mk audio subs => by
    cases md with
    | true =>
      by_cases hmk : mk = true
      · simp [runTagger, hmk, MarkedProp]
      · by_cases hok : ok = true
        · by_cases ha : audio = []
          · subst ha
            simp [runTagger, hmk, process_book_folder, MarkedProp]
          · simp [runTagger, hmk, hok, process_book_folder, ha, MarkedProp]
        · have hokf : ok = false := by revert hok; cases ok <;> simp
          subst hokf
          simp [runTagger, hmk, process_book_folder, MarkedProp]
    | false =>
      simpa [runTagger, MarkedProp] using marked_after_run_list subs

theorem marked_after_run_list : ∀ ts : List FsTree, MarkedListProp (runTaggerList TagMode.smart ts).1
  | [] => by simp [runTaggerList, MarkedListProp]
  | t :: ts => by
    simp only [runTaggerList, MarkedListProp]
    exact ⟨marked_after_run t, marked_after_run_list ts⟩

end

/-- C7: in incremental ("smart") mode, a book folder whose marker file exists
is skipped entirely — no audio file is written, the folder (including its
subdirectories, which are not descended into) is untouched, and the book is
reported as skipped; consequently a second smart run over the tree produced
by a smart run performs zero tag writes.  (write_tags.py has no --force flag:
forcing is expressed by choosing mode `all` instead of `smart`.) -/
theorem claim_C7_smart_mode_idempotent (t : FsTree) :
    (t.hasMetadata = true → t.hasMarker = true →
      runTagger TagMode.smart t = (t, [TEv.skipReport])) ∧
    countWrites (runTagger TagMode.smart (runTagger TagMode.smart t).1).2 = 0 := by
  constructor
  · intro hmd hmk
    cases t with
    | dir md ok mk audio subs =>
      simp only [FsTree.hasMetadata] at hmd
      simp only [FsTree.hasMarker] at hmk
      simp [runTagger, hmd, hmk]
  · exact marked_no_writes _ (marked_after_run t)

/-- C7 witness: a marked book folder is returned unchanged with only the skip
report, and a second smart run over a freshly processed one-book tree
performs zero writes. -/
theorem claim_C7_smart_mode_idempotent_witness :
    runTagger TagMode.smart (FsTree.dir true true true [codes "a.mp3"] [])
      = (FsTree.dir true true true [codes "a.mp3"] [], [TEv.skipReport]) ∧
    countWrites (runTagger TagMode.smart
        (runTagger TagMode.smart (FsTree.dir true true false [codes "a.mp3"] [])).1).2 = 0 :=
  ⟨(claim_C7_smart_mode_idempotent (FsTree.dir true true true [codes "a.mp3"] [])).1 rfl rfl,
    (claim_C7_smart_mode_idempotent (FsTree.dir true true false [codes "a.mp3"] [])).2⟩

theorem addToGroups_keys (k : Str) (f : Str) : ∀ m : List (Str × List Str),
    (addToGroups m k f).map Prod.fst
      = if k ∈ m.map Prod.fst then m.map Prod.fst else m.map Prod.fst ++ [k]
  | [] => by simp [addToGroups]
  | (k', fs') :: rest => by
    by_cases hk : k' = k
    · subst hk
      simp [addToGroups]
    · have hk2 : ¬ k = k' := fun hh => hk hh.symm
      rw [addToGroups, if_neg hk]
      simp only [List.map_cons]
      rw [addToGroups_keys k f rest]
      by_cases hkr : k ∈ rest.map Prod.fst
      · simp [hkr, hk2]
      · simp [hkr, hk2]

theorem addToGroups_keys_nodup (m : List (Str × List Str)) (k f : Str)
    (h : (m.map Prod.fst).Nodup) : ((addToGroups m k f).map Prod.fst).Nodup := by
  rw [addToGroups_keys]
  split_ifs with hmem
  · exact h
  · exact List.Nodup.append h (List.nodup_singleton k) (by simpa using hmem)

theorem addToGroups_members_inv (files : List Str) (f k : Str) (hf : f ∈ files)
    (hkey : get_base_name f = k) :
    ∀ m : List (Str × List Str),
      (∀ g ∈ m, ∀ x ∈ g.2, x ∈ files ∧ get_base_name x = g.1) →
      ∀ g ∈ addToGroups m k f, ∀ x ∈ g.2,
        x ∈ files ∧ get_base_name x = g.1 := by
  intro m
  induction m with
  | nil =>
    intro _ g hg x hx
    rw [addToGroups] at hg
    rcases List.mem_singleton.mp hg with rfl
    rcases List.mem_singleton.mp hx with rfl
    exact ⟨hf, hkey⟩
  | cons hd rest ih =>
    obtain ⟨k', fs'⟩ := hd
    intro h1 g hg x hx
    rw [addToGroups] at hg
    by_cases hk : k' = k
    · rw [if_pos hk] at hg
      rcases List.mem_cons.mp hg with rfl | hgt
      · rcases List.mem_append.mp hx with hx' | hx'
        · exact h1 (k', fs') (List.mem_cons_self _ _) x hx'
        · rcases List.mem_singleton.mp hx' with rfl
          exact ⟨hf, hkey.trans hk.symm⟩
      · exact h1 g (List.mem_cons_of_mem _ hgt) x hx
    · rw [if_neg hk] at hg
      rcases List.mem_cons.mp hg with rfl | hgt
      · exact h1 (k', fs') (List.mem_cons_self _ _) x hx
      · exact ih (fun g' hg' => h1 g' (List.mem_cons_of_mem _ hg')) g hgt x hx

theorem mem_eq_of_keys_nodup :
    ∀ (m : List (Str × List Str)) (g g' : Str × List Str),
      (m.map Prod.fst).Nodup → g ∈ m → g' ∈ m → g.1 = g'.1 → g = g'
  | [], _, _, _, hg, _, _ => absurd hg (List.not_mem_nil _)
  | h :: t, g, g', hnd, hg, hg', hk => by
    simp only [List.map_cons, List.nodup_cons] at hnd
    rcases List.mem_cons.mp hg with rfl | hgt
    · rcases List.mem_cons.mp hg' with rfl | hg't
      · rfl
      · exact absurd (hk ▸ List.mem_map_of_mem Prod.fst hg't) hnd.1
    · rcases List.mem_cons.mp hg' with rfl | hg't
      · exact absurd (hk ▸ List.mem_map_of_mem Prod.fst hgt) hnd.1
      · exact mem_eq_of_keys_nodup t g g' hnd.2 hgt hg't hk

theorem base_name_map_inv_aux (audioExts imageExts : List Str) (files : List Str) :
    ∀ (items : List Str) (m₀ : List (Str × List Str)),
      (∀ i ∈ items, i ∈ files) →
      (∀ g ∈ m₀, ∀ x ∈ g.2, x ∈ files ∧ get_base_name x = g.1) →
      (m₀.map Prod.fst).Nodup →
      (∀ g ∈ items.foldl (groupStep audioExts imageExts) m₀, ∀ x ∈ g.2,
          x ∈ files ∧ get_base_name x = g.1) ∧
      ((items.foldl (groupStep audioExts imageExts) m₀).map Prod.fst).Nodup
  | [], m₀, _, h1, h2 => ⟨h1, h2⟩
  | item :: items, m₀, hitems, h1, h2 => by
    have hitem : item ∈ files := hitems item (List.mem_cons_self _ _)
    have hstep1 : ∀ g ∈ groupStep audioExts imageExts m₀ item, ∀ x ∈ g.2,
        x ∈ files ∧ get_base_name x = g.1 := by
      rw [groupStep]
      split_ifs with hmedia hbase
      · exact h1
      · exact addToGroups_members_inv files item (get_base_name item) hitem rfl m₀ h1
      · exact h1
    have hstep2 : ((groupStep audioExts imageExts m₀ item).map Prod.fst).Nodup := by
      rw [groupStep]
      split_ifs with hmedia hbase
      · exact h2
      · exact addToGroups_keys_nodup m₀ _ item h2
      · exact h2
    exact base_name_map_inv_aux audioExts imageExts files items _
      (fun i hi => hitems i (List.mem_cons_of_mem _ hi)) hstep1 hstep2

theorem base_name_map_inv (audioExts imageExts : List Str) (files : List Str) :
    (∀ g ∈ base_name_map audioExts imageExts files, ∀ x ∈ g.2,
        x ∈ files ∧ get_base_name x = g.1) ∧
    ((base_name_map audioExts imageExts files).map Prod.fst).Nodup :=
  base_name_map_inv_aux audioExts imageExts files files []
    (fun _ hi => hi) (fun g hg => absurd hg (List.not_mem_nil g)) List.nodup_nil

/-- C9: a BookGroup formed during staging that contains no audio file is left
untouched at its original source location: every member file remains among
the loose source files after the grouping phase, every staging subfolder that
is created stems from an audio-bearing group other than this one, and none of
this group's files is moved into any created staging folder — the group is
excluded from staging but never dropped from disk. -/
theorem claim_C9_image_only_group_untouched
    (audioExts imageExts : List Str) (files : List Str) (g : Str × List Str)
    (hg : g ∈ base_name_map audioExts imageExts files)
    (hnoaudio : groupHasAudio audioExts g.2 = false) :
    (∀ f ∈ g.2, f ∈ sourceRemaining audioExts imageExts files) ∧
    (∀ fld ∈ stagedFolders audioExts (base_name_map audioExts imageExts files),
      ∃ g', g' ∈ base_name_map audioExts imageExts files ∧
        groupHasAudio audioExts g'.2 = true ∧
        fld = (sanitize_filename (pyTitle g'.1), g'.2) ∧ g' ≠ g) ∧
    (∀ f ∈ g.2, ∀ fld ∈ stagedFolders audioExts (base_name_map audioExts imageExts files),
      f ∉ fld.2) := by
  obtain ⟨hmem, hnd⟩ := base_name_map_inv audioExts imageExts files
  have huniq : ∀ g' ∈ base_name_map audioExts imageExts files,
      groupHasAudio audioExts g'.2 = true → ∀ f ∈ g.2, f ∉ g'.2 := by
    intro g' hg' haud f hf hf'
    have h1 := (hmem g hg f hf).2
    have h2 := (hmem g' hg' f hf').2
    have hgg : g = g' :=
      mem_eq_of_keys_nodup _ g g' hnd hg hg' (h1.symm.trans h2)
    rw [← hgg] at haud
    simp [hnoaudio] at haud
  refine ⟨?_, ?_, ?_⟩
  · intro f hf
    have hffiles : f ∈ files := (hmem g hg f hf).1
    have hnotmoved : f ∉ movedFiles audioExts (base_name_map audioExts imageExts files) := by
      intro hmv
      rw [movedFiles] at hmv
      rcases List.mem_flatMap.mp hmv with ⟨g', hg'f, hfg'⟩
      rcases List.mem_filter.mp hg'f with ⟨hg'm, haud⟩
      exact huniq g' hg'm haud f hf hfg'
    rw [sourceRemaining]
    exact List.mem_filter.mpr ⟨hffiles, by simpa using hnotmoved⟩
  · intro fld hfld
    rw [stagedFolders] at hfld
    rcases List.mem_map.mp hfld with ⟨g', hg'f, rfl⟩
    rcases List.mem_filter.mp hg'f with ⟨hg'm, haud⟩
    refine ⟨g', hg'm, haud, rfl, ?_⟩
    intro heq
    rw [heq] at haud
    simp [hnoaudio] at haud
  · intro f hf fld hfld
    rw [stagedFolders] at hfld
    rcases List.mem_map.mp hfld with ⟨g', hg'f, rfl⟩
    rcases List.mem_filter.mp hg'f with ⟨hg'm, haud⟩
    exact fun hffld => huniq g' hg'm haud f hf hffld

/-- C9 witness: a lone image file forms an image-only group and stays in the
source directory. -/
theorem claim_C9_image_only_group_untouched_witness :
    codes "art.jpg" ∈ sourceRemaining [codes ".mp3"] [codes ".jpg"] [codes "art.jpg"] :=
  (claim_C9_image_only_group_untouched [codes ".mp3"] [codes ".jpg"] [codes "art.jpg"]
      (codes "art", [codes "art.jpg"]) (by decide) (by decide)).1 (codes "art.jpg") (by decide)
